import Mathlib

/-!
Verification of the issue-resolution pipeline of this repository:
shallow embeddings of `src/issue_resolution.py` (plan parsing and
normalization, subtask-driven file edits) and `src/branch_utils.py`
(branch creation, file updates, pull-request publishing), together with
theorems settling the frozen behavioural claims.

Python strings are modelled as Lean `String`, Python dicts as
association lists with unique keys (first-match lookup, replace-or-append
assignment, mirroring insertion-order dict semantics), and fallible
Python code as `Option`/`Except` values.
-/

/-- Tests whether the list `pat` is an initial segment of `hay`
(textual model of both `str.startswith` and regex literal matching). -/
def startsWithL : List Char → List Char → Bool
  | _, [] => true
  | [], _ :: _ => false
  | c :: cs, p :: ps => c == p && startsWithL cs ps

/-- Tests whether `pat` occurs as a contiguous sublist of the second
argument; model of the Python substring operator `in`. -/
def containsSub (pat : List Char) : List Char → Bool
  | [] => startsWithL [] pat
  | c :: t => startsWithL (c :: t) pat || containsSub pat t

/-- Python `pat in s` on strings. -/
def strContains (s pat : String) : Bool :=
  containsSub pat.toList s.toList

/-- Python `s.startswith(pat)`. -/
def strStarts (s pat : String) : Bool :=
  startsWithL s.toList pat.toList

/-- Python `s.lower()` on ASCII text (the unicode case table is not
modelled; every claim's text is ASCII). -/
def strLower (s : String) : String :=
  (s.toList.map Char.toLower).asString

/-- Python `s.strip()` for the common whitespace characters. -/
def strStrip (s : String) : String :=
  let ws := fun (c : Char) => c == ' ' || c == '\n' || c == '\t' || c == '\r'
  (((s.toList.dropWhile ws).reverse.dropWhile ws).reverse).asString

/-- Python `s.endswith(pat)`. -/
def strEnds (s pat : String) : Bool :=
  startsWithL s.toList.reverse pat.toList.reverse

/-- Number of positions at which `pat` occurs in the list. -/
def countSub (pat : List Char) : List Char → Nat
  | [] => 0
  | c :: t => (if startsWithL (c :: t) pat then 1 else 0) + countSub pat t

/-- Python `content.split(chr(10))`: splits into lines, keeping empty pieces. -/
def splitNl (s : String) : List String :=
  (s.toList.splitOn '\n').map List.asString

/-- Dict lookup on an association list (`d.get(k)` / `d[k]`). -/
def dget {α : Type} : List (String × α) → String → Option α
  | [], _ => none
  | e :: t, k => if e.1 = k then some e.2 else dget t k

/-- Dict assignment `d[k] = v`: replaces the first binding of `k`
in place, or appends a new binding, as Python dicts do. -/
def dset {α : Type} : List (String × α) → String → α → List (String × α)
  | [], k, v => [(k, v)]
  | e :: t, k, v => if e.1 = k then (k, v) :: t else e :: dset t k v

/-- The fixed boilerplate appended by `update_readme`
(string literal from `src/issue_resolution.py`, line 343). -/
def runningTestsBoiler : String :=
  "\n\n## Running Tests\n\nTo run the tests for this project, follow these steps:\n\n1. Ensure you have all dependencies installed.\n2. Navigate to the project root directory.\n3. Run the following command:\n\n```\npytest\n```\n\nThis will execute all the tests in the project."

/-- Embedding of `update_readme(content, description)`
(`src/issue_resolution.py`, lines 340-344): appends the Running Tests
section when the heading is absent; the `description` argument is unused
in the source body. -/
def update_readme (content : String) (description : String) : String :=
  if strContains content "## Running Tests" then content
  else content ++ runningTestsBoiler

/-- Embedding of `create_readme(description)`
(`src/issue_resolution.py`, lines 346-347); the argument is unused
in the source body. -/
def create_readme (description : String) : String :=
  "# Project Name\n\n## Description\n\nThis project is a work in progress.\n\n## Running Tests\n\nTo run the tests for this project, follow these steps:\n\n1. Ensure you have all dependencies installed.\n2. Navigate to the project root directory.\n3. Run the following command:\n\n```\npytest\n```\n\nThis will execute all the tests in the project."

/-- JSON values, the data produced by `json.loads`. Numbers are modelled
as integers: none of the repository's parsing claims involve floats, and
a numeric literal with a fractional or exponent part is treated as a
parse failure by this model. -/
inductive JsonVal where
  | str (s : String)
  | num (n : Int)
  | bool (b : Bool)
  | null
  | arr (xs : List JsonVal)
  | obj (fields : List (String × JsonVal))

/-- Python `isinstance(v, list)`. -/
def JsonVal.isList : JsonVal → Bool
  | JsonVal.arr _ => true
  | _ => false

/-- Skips JSON whitespace. -/
def skipWs : List Char → List Char
  | [] => []
  | c :: cs => if c == ' ' || c == '\n' || c == '\t' || c == '\r' then skipWs cs else c :: cs

/-- Parses a JSON string body (the opening quote already consumed),
accumulating characters until the closing quote. Common escapes are
handled; `\u` escapes are not modelled (no claim exercises them). -/
def parseStrAux : List Char → List Char → Option (String × List Char)
  | [], _ => none
  | c :: rest, acc =>
    if c = '"' then some ((acc.reverse).asString, rest)
    else if c = '\\' then
      match rest with
      | [] => none
      | e :: rest2 =>
        if e = '"' then parseStrAux rest2 ('"' :: acc)
        else if e = '\\' then parseStrAux rest2 ('\\' :: acc)
        else if e = '/' then parseStrAux rest2 ('/' :: acc)
        else if e = 'n' then parseStrAux rest2 ('\n' :: acc)
        else if e = 't' then parseStrAux rest2 ('\t' :: acc)
        else if e = 'r' then parseStrAux rest2 ('\r' :: acc)
        else if e = 'b' then parseStrAux rest2 (Char.ofNat 8 :: acc)
        else if e = 'f' then parseStrAux rest2 (Char.ofNat 12 :: acc)
        else none
    else parseStrAux rest (c :: acc)

/-- Digit run to a natural number. -/
def digitsToNat (ds : List Char) : Nat :=
  ds.foldl (fun a c => a * 10 + (c.toNat - 48)) 0

/-- Parses a JSON integer literal (sign, no leading zeros, and no
fractional/exponent part, which this model does not cover). -/
def parseNum (cs : List Char) : Option (JsonVal × List Char) :=
  let neg := startsWithL cs ['-']
  let body := if neg then cs.drop 1 else cs
  let ds := body.takeWhile (fun c => c.isDigit)
  let rest := body.drop ds.length
  if ds.isEmpty then none
  else if ds.length > 1 && startsWithL ds ['0'] then none
  else if startsWithL rest ['.'] || startsWithL rest ['e'] || startsWithL rest ['E'] then none
  else
    let v : Int := Int.ofNat (digitsToNat ds)
    some (JsonVal.num (if neg then -v else v), rest)

/-- Parser mode: a single value, the tail of an array, or the tail of an
object (with the members accumulated so far). -/
inductive PMode where
  | val
  | elems (acc : List JsonVal)
  | members (acc : List (String × JsonVal))

/-- Fuel-indexed recursive-descent JSON parser. Object members are
accumulated with `dset`, giving Python dict duplicate-key semantics
(first position, last value). -/
def parseP : Nat → PMode → List Char → Option (JsonVal × List Char)
  | 0, _, _ => none
  | Nat.succ fuel, PMode.val, cs =>
    let cs2 := skipWs cs
    if startsWithL cs2 ['t', 'r', 'u', 'e'] then some (JsonVal.bool true, cs2.drop 4)
    else if startsWithL cs2 ['f', 'a', 'l', 's', 'e'] then some (JsonVal.bool false, cs2.drop 5)
    else if startsWithL cs2 ['n', 'u', 'l', 'l'] then some (JsonVal.null, cs2.drop 4)
    else
      match cs2 with
      | [] => none
      | c :: rest =>
        if c = '"' then
          match parseStrAux rest [] with
          | some (s, r) => some (JsonVal.str s, r)
          | none => none
        else if c = '\x7b' then
          match skipWs rest with
          | [] => none
          | d :: r2 =>
            if d = '\x7d' then some (JsonVal.obj [], r2)
            else parseP fuel (PMode.members []) (d :: r2)
        else if c = '[' then
          match skipWs rest with
          | [] => none
          | d :: r2 =>
            if d = ']' then some (JsonVal.arr [], r2)
            else parseP fuel (PMode.elems []) (d :: r2)
        else parseNum (c :: rest)
  | Nat.succ fuel, PMode.elems acc, cs =>
    match parseP fuel PMode.val cs with
    | none => none
    | some (v, r1) =>
      match skipWs r1 with
      | ',' :: r2 => parseP fuel (PMode.elems (acc ++ [v])) r2
      | ']' :: r2 => some (JsonVal.arr (acc ++ [v]), r2)
      | _ => none
  | Nat.succ fuel, PMode.members acc, cs =>
    match skipWs cs with
    | '"' :: rest =>
      match parseStrAux rest [] with
      | none => none
      | some (k, r1) =>
        match skipWs r1 with
        | ':' :: r2 =>
          match parseP fuel PMode.val r2 with
          | none => none
          | some (v, r3) =>
            let acc2 := dset acc k v
            match skipWs r3 with
            | ',' :: r4 => parseP fuel (PMode.members acc2) r4
            | '\x7d' :: r4 => some (JsonVal.obj acc2, r4)
            | _ => none
        | _ => none
    | _ => none

/-- Model of Python `json.loads`: parses one value and requires the rest
of the input to be whitespace. -/
def jsonLoads (s : String) : Option JsonVal :=
  match parseP (2 * s.length + 2) PMode.val s.toList with
  | some (v, rest) => if (skipWs rest).isEmpty then some v else none
  | none => none

/-- The Python exceptions `parse_ai_response` can raise: `ValueError`
with a message, or the `AttributeError` produced by calling `.get` on a
non-dict value (its exact message is type-dependent in Python and
approximated by a fixed string here; no claim depends on that text). -/
inductive PyError where
  | valueError (msg : String)
  | attributeError (msg : String)
deriving DecidableEq

/-- The message of the parse failure raised at
`src/issue_resolution.py` lines 22 and 24. -/
def parseErrorMsg : String := "Unable to parse AI response as JSON"

/-- Returns the characters following the first occurrence of the fence
opener (backtick, backtick, backtick, j, s, o, n, newline). -/
def afterFenceOpen : List Char → Option (List Char)
  | [] => none
  | c :: rest =>
    if startsWithL (c :: rest) ("```json\n".toList) then some ((c :: rest).drop 8)
    else afterFenceOpen rest

/-- Returns the characters before the first occurrence of a closing
triple-backtick fence, or `none` when there is none. -/
def beforeFenceClose : List Char → Option (List Char)
  | [] => none
  | c :: rest =>
    if startsWithL (c :: rest) ("```".toList) then some []
    else (beforeFenceClose rest).map (fun l => c :: l)

/-- Model of `re.search(r'```json\n(.*?)```', response, re.DOTALL)`
from `src/issue_resolution.py` line 17: the interior between the first
fence opener and the earliest closing fence after it. (A later opener
can never succeed when the first one fails, since any closing fence
after a later opener also lies after the first one, so taking the first
opener matches the regex's leftmost-match rule.) -/
def extract_fenced_json (s : String) : Option String :=
  match afterFenceOpen s.toList with
  | some rest => (beforeFenceClose rest).map List.asString
  | none => none

/-- Rough rendering of Python `str(...)` on a JSON value, used only for
the `str(data['issue_analysis'])` fallback; Python's exact `repr` text
is approximated and no claim observes it. -/
def pyReprAtom : JsonVal → String
  | JsonVal.str s => "\x27" ++ s ++ "\x27"
  | JsonVal.num n => toString n
  | JsonVal.bool true => "True"
  | JsonVal.bool false => "False"
  | JsonVal.null => "None"
  | JsonVal.arr _ => "[...]"
  | JsonVal.obj _ => "\x7b...\x7d"

/-- Rough rendering of Python `str(d)` for a dict (see `pyReprAtom`). -/
def pyStrDict (fields : List (String × JsonVal)) : String :=
  "\x7b" ++ String.intercalate ", "
    (fields.map (fun kv => "\x27" ++ kv.1 ++ "\x27: " ++ pyReprAtom kv.2)) ++ "\x7d"

/-- Lines 27-28 of `src/issue_resolution.py`: when `issue_analysis` is a
dict, replace it by its `description` entry, defaulting to the string
rendering of the whole dict. -/
def handle_issue_analysis (d : List (String × JsonVal)) : List (String × JsonVal) :=
  match dget d "issue_analysis" with
  | some (JsonVal.obj m) =>
      dset d "issue_analysis"
        (match dget m "description" with
         | some v => v
         | none => JsonVal.str (pyStrDict m))
  | _ => d

/-- One iteration of the list-coercion loop (lines 31-33 and 36-37 of
`src/issue_resolution.py`): if the field is present and not a list, wrap
its value in a one-element list. -/
def ensure_list_field (d : List (String × JsonVal)) (field : String) :
    List (String × JsonVal) :=
  match dget d field with
  | some v => if v.isList then d else dset d field (JsonVal.arr [v])
  | none => d

/-- The post-parse normalization steps of `parse_ai_response`
(lines 26-39 of `src/issue_resolution.py`), on a dict payload. -/
def normalize_fields (d : List (String × JsonVal)) : List (String × JsonVal) :=
  ensure_list_field
    (ensure_list_field
      (ensure_list_field
        (ensure_list_field (handle_issue_analysis d) "dependencies")
        "potential_challenges")
      "documentation_updates")
    "subtasks"

/-- The normalization phase applied to whatever `json.loads` returned.
On a non-dict value the first step, `data.get('issue_analysis')`, raises
`AttributeError` in Python, modelled as the error case. -/
def normalize_data : JsonVal → Except PyError JsonVal
  | JsonVal.obj fields => Except.ok (JsonVal.obj (normalize_fields fields))
  | _ => Except.error (PyError.attributeError "no attribute get")

/-- Embedding of `parse_ai_response(response)`
(`src/issue_resolution.py`, lines 11-39): direct JSON parse, then the
fenced-block fallback, then a `ValueError`; successful parses flow into
the normalization steps. -/
def parse_ai_response (response : String) : Except PyError JsonVal :=
  match jsonLoads response with
  | some data => normalize_data data
  | none =>
    match extract_fenced_json response with
    | some inner =>
      match jsonLoads inner with
      | some data => normalize_data data
      | none => Except.error (PyError.valueError parseErrorMsg)
    | none => Except.error (PyError.valueError parseErrorMsg)

/-- Python `\w` on ASCII: letters, digits, underscore (the unicode
extension of `\w` is not modelled; no claim uses non-ASCII text). -/
def isWordChar (c : Char) : Bool := c.isAlphanum || c == '_'

/-- Model of `re.search(r"for (\w+)", description)` from
`src/issue_resolution.py` line 226: the first occurrence of the literal
`for ` followed by at least one word character yields the maximal word
run after it. -/
def find_for_ident : List Char → Option String
  | [] => none
  | c :: cs =>
    if startsWithL (c :: cs) ("for ".toList) then
      let w := ((c :: cs).drop 4).takeWhile isWordChar
      if w.isEmpty then find_for_ident cs else some w.asString
    else find_for_ident cs

/-- The test-file body generated by `create_test_file`
(f-string at `src/issue_resolution.py` lines 232-238). -/
def test_file_skeleton (name description : String) : String :=
  "import pytest\nfrom " ++ name ++ " import app\n\ndef test_" ++ name ++
    "_endpoints():\n    # TODO: Implement test cases based on: " ++ description ++
    "\n    pass\n"

/-- Embedding of `create_test_file(description, file_contents)`
(`src/issue_resolution.py`, lines 224-240). The `file_contents`
parameter is accepted and ignored, exactly as in the source body. -/
def create_test_file (description : String)
    (file_contents : List (String × String)) : Option (String × String) :=
  match find_for_ident description.toList with
  | some name => some ("test_" ++ name ++ ".py", test_file_skeleton name description)
  | none => none

/-- `Subtask` from `src/models.py`. -/
structure Subtask where
  description : String
  estimated_time : String

/-- `ResolutionPlan` from `src/models.py`. -/
structure ResolutionPlan where
  issue_analysis : String
  subtasks : List Subtask
  dependencies : List String
  potential_challenges : List String
  testing_strategy : String
  documentation_updates : List String

/-- Model of `os.path.splitext(p)[1]`: the extension starting at the
last dot of the basename, where leading dots of the basename do not
begin an extension. -/
def splitext_ext (p : String) : String :=
  let base := ((p.toList.reverse.takeWhile (fun c => !(c == '/'))).reverse)
  let lead := base.takeWhile (fun c => c == '.')
  let rest := base.drop lead.length
  let revRest := rest.reverse
  let afterDot := revRest.takeWhile (fun c => !(c == '.'))
  if afterDot.length = revRest.length then ""
  else ('.' :: afterDot.reverse).asString

/-- One step of the generic-edit loop of `modify_files`
(`src/issue_resolution.py`, lines 142-150): when the lower-cased file
path occurs in the lower-cased description, the delegated edit (the
`oracle`, standing for `implement_changes_with_openai`) runs on the
original content, and its result is recorded iff it differs from the
original. -/
def generic_step (oracle : String → String → String → String)
    (descLow descOrig : String) :
    List (String × String) → (String × String) → List (String × String) :=
  fun md e =>
    if strContains (strLower descLow) (strLower e.1) then
      let mc := oracle e.2 descOrig (splitext_ext e.1)
      if mc ≠ e.2 then dset md e.1 mc else md
    else md

/-- Strategy dispatch for one subtask (`src/issue_resolution.py`,
lines 121-150): create-test-file, then update-readme, then the
generic-edit loop over every known file. -/
def process_subtask (oracle : String → String → String → String)
    (file_contents : List (String × String))
    (md : List (String × String)) (st : Subtask) : List (String × String) :=
  let description := strLower st.description
  if strContains description "create test file" then
    match create_test_file st.description file_contents with
    | some pc => dset md pc.1 pc.2
    | none => md
  else if strContains description "update readme" ||
      strContains description "update readme.md" then
    match dget file_contents "README.md" with
    | some orig =>
        let updated := update_readme orig st.description
        if updated ≠ orig then dset md "README.md" updated else md
    | none => dset md "README.md" (create_readme st.description)
  else
    file_contents.foldl (generic_step oracle description st.description) md

/-- Embedding of `modify_files(repo, file_contents, plan)`
(`src/issue_resolution.py`, lines 116-166). The `repo` argument is
unused in the source body; the OpenAI-backed free-form edit is the
injected `oracle` function from (content, description, extension) to new
content, whose result the pipeline treats as an opaque string. -/
def modify_files (oracle : String → String → String → String)
    (file_contents : List (String × String)) (plan : ResolutionPlan) :
    List (String × String) :=
  plan.subtasks.foldl (fun md st => process_subtask oracle file_contents md st) []

/-- Outcome of one remote GitHub call: normal return, a raised
`GithubException` carrying a status, or any other raised exception. -/
inductive CallRes (α : Type) where
  | ok (a : α)
  | ghex (status : Nat) (msg : String)
  | exn (msg : String)

/-- Result of running a Python function that may raise: the returned
value, or an uncaught exception with its message. -/
inductive PyResult (α : Type) where
  | ok (a : α)
  | raised (msg : String)

/-- The repository-mutation surface used by `src/branch_utils.py`,
modelled as oracles giving each remote call's outcome, plus the wall
clock read by `int(time.time())`. `get_contents` takes (path, ref);
`create_pull` takes (head, base, title, body). -/
structure Gh where
  default_branch : String
  get_branch : String → CallRes Nat
  create_git_ref : String → CallRes Unit
  get_contents : String → String → CallRes Nat
  repo_update_file : String → CallRes Unit
  repo_create_file : String → CallRes Unit
  compare_empty : String → String → CallRes Bool
  create_pull : String → String → String → String → CallRes String
  now : Nat

/-- Embedding of `create_branch(repo, base_branch)`
(`src/branch_utils.py`, lines 17-42) at the default branch-name
pattern `fix-issue-<timestamp>`: both `except` arms return `None`. -/
def create_branch (gh : Gh) (base_branch : String) : Option String :=
  let bb := if base_branch = "main" then gh.default_branch else base_branch
  match gh.get_branch bb with
  | CallRes.ok _ =>
      let name := "fix-issue-" ++ toString gh.now
      match gh.create_git_ref name with
      | CallRes.ok _ => some name
      | _ => none
  | _ => none

/-- Embedding of `update_file(repo, file_path, content, branch,
commit_message)` (`src/branch_utils.py`, lines 44-55). A
`GithubException` from the update is caught: status 404 triggers the
create fallback (whose own exceptions propagate, since they are raised
inside the `except` block); any other status is only printed, so the
call returns normally. Non-`GithubException` errors propagate. The
`content` and `commit_message` arguments do not influence the modelled
outcome. -/
def update_file (gh : Gh) (file_path content branch commit_message : String) :
    PyResult Unit :=
  match gh.get_contents file_path branch with
  | CallRes.ok _ =>
      match gh.repo_update_file file_path with
      | CallRes.ok _ => PyResult.ok ()
      | CallRes.ghex s _ =>
          if s = 404 then
            match gh.repo_create_file file_path with
            | CallRes.ok _ => PyResult.ok ()
            | CallRes.ghex _ m2 => PyResult.raised m2
            | CallRes.exn m2 => PyResult.raised m2
          else PyResult.ok ()
      | CallRes.exn m => PyResult.raised m
  | CallRes.ghex s _ =>
      if s = 404 then
        match gh.repo_create_file file_path with
        | CallRes.ok _ => PyResult.ok ()
        | CallRes.ghex _ m2 => PyResult.raised m2
        | CallRes.exn m2 => PyResult.raised m2
      else PyResult.ok ()
  | CallRes.exn m => PyResult.raised m

/-- Embedding of `create_pull_request(repo, head_branch, base_branch,
title, body)` (`src/branch_utils.py`, lines 57-73). The second
component records whether `repo.create_pull` was actually invoked. An
empty comparison returns `None` without calling `create_pull`; a
`GithubException` anywhere is caught and yields `None`; other
exceptions propagate. -/
def create_pull_request (gh : Gh) (head_branch base_branch title body : String) :
    PyResult (Option String) × Bool :=
  match gh.compare_empty base_branch head_branch with
  | CallRes.ok true => (PyResult.ok none, false)
  | CallRes.ok false =>
      match gh.create_pull head_branch base_branch title body with
      | CallRes.ok url => (PyResult.ok (some url), true)
      | CallRes.ghex _ _ => (PyResult.ok none, true)
      | CallRes.exn m => (PyResult.raised m, true)
  | CallRes.ghex _ _ => (PyResult.ok none, false)
  | CallRes.exn m => (PyResult.raised m, false)

/-- Line 79 of `src/branch_utils.py`: `"main"` stands for the
repository's default branch. -/
def resolve_base (gh : Gh) (b : String) : String :=
  if b = "main" then gh.default_branch else b

/-- The `files_updated` flag computed by the loop at lines 86-92 of
`src/branch_utils.py`: true iff at least one `update_file` call
returned normally (per-file exceptions are caught and only logged). -/
def any_update_ok (gh : Gh) (files : List (String × String)) (branch : String) :
    Bool :=
  files.foldl
    (fun acc e =>
      match update_file gh e.1 e.2 branch ("Update " ++ e.1) with
      | PyResult.ok _ => true
      | PyResult.raised _ => acc)
    false

/-- Whether the per-file update attempt results in a repository change,
i.e. a successful remote update or create call (as opposed to merely
returning normally after an internally caught failure). This is an
observation on the `Gh` oracle, used to state the no-op-guard claim. -/
def update_actually_changed (gh : Gh) (file_path branch : String) : Bool :=
  match gh.get_contents file_path branch with
  | CallRes.ok _ =>
      match gh.repo_update_file file_path with
      | CallRes.ok _ => true
      | CallRes.ghex s _ =>
          if s = 404 then
            match gh.repo_create_file file_path with
            | CallRes.ok _ => true
            | _ => false
          else false
      | CallRes.exn _ => false
  | CallRes.ghex s _ =>
      if s = 404 then
        match gh.repo_create_file file_path with
        | CallRes.ok _ => true
        | _ => false
      else false
  | CallRes.exn _ => false

/-- Embedding of `setup_and_update_branch(repo, modified_files,
base_branch, issue_number)` (`src/branch_utils.py`, lines 75-107).
Returns the `(succeeded, message, pull_request_url)` triple plus the
flag recording whether `repo.create_pull` was invoked. Python's
truthiness of `issue_number` (0 and `None` both falsy) is preserved. -/
def setup_and_update_branch (gh : Gh) (modified_files : List (String × String))
    (base_branch : String) (issue_number : Option Nat) :
    (Bool × String × Option String) × Bool :=
  let bb := resolve_base gh base_branch
  match create_branch gh bb with
  | none =>
      ((false,
        "Failed to create new branch. Please check the repository permissions and branch names.",
        none), false)
  | some new_branch =>
      let files_updated := any_update_ok gh modified_files new_branch
      if files_updated = false then
        ((false, "No files were updated. Changes might already exist in the repository.",
          none), false)
      else
        let use_issue := match issue_number with
          | some n => !(n == 0)
          | none => false
        let pr_title := if use_issue then
            "Fix for issue #" ++ toString (issue_number.getD 0)
          else "Update files"
        let pr_body := if use_issue then
            "This pull request addresses issue #" ++ toString (issue_number.getD 0) ++ "."
          else "This pull request updates files."
        match create_pull_request gh new_branch bb pr_title pr_body with
        | (PyResult.ok (some url), att) =>
            ((true, "Branch \x27" ++ new_branch ++
              "\x27 created, files updated, and pull request created", some url), att)
        | (PyResult.ok none, att) =>
            ((false, "Branch \x27" ++ new_branch ++
              "\x27 created and files updated, but failed to create pull request",
              none), att)
        | (PyResult.raised m, att) =>
            ((false, "An error occurred: " ++ m, none), att)

/-- The target language families named by the spec. -/
inductive LangFamily where
  | jsFamily
  | csFamily
  | defaultFamily
deriving DecidableEq

/-- Modelled from the spec: the language family chosen by "a majority
vote across known file extensions: most .js/.ts gives the JS family,
most .cs the C# family, otherwise the default family". -/
def spec_majority_family (paths : List String) : LangFamily :=
  let jsCount := (paths.filter (fun p => strEnds p ".js" || strEnds p ".ts")).length
  let csCount := (paths.filter (fun p => strEnds p ".cs")).length
  if jsCount > csCount then LangFamily.jsFamily
  else if csCount > jsCount then LangFamily.csFamily
  else LangFamily.defaultFamily

/-- Modelled from the spec: the language family a produced test-file
name belongs to, read off its extension (naming "scoped to the target
language"). -/
def spec_name_family (name : String) : LangFamily :=
  if strEnds name ".js" || strEnds name ".ts" then LangFamily.jsFamily
  else if strEnds name ".cs" then LangFamily.csFamily
  else LangFamily.defaultFamily

/-- The "known import family" extension set named by the claim. -/
def import_family : List String := [".py", ".js", ".ts", ".cs"]

/-- Modelled from the spec: a JS import-style line (a line whose
stripped text starts with `import `). -/
def spec_js_import_line (l : String) : Bool :=
  strStarts (strStrip l) "import "

/-- Modelled from the spec: the imported name of a JS import line, the
token after `import `. -/
def spec_js_import_name (l : String) : String :=
  (((strStrip l).toList.drop 7).takeWhile (fun c => !(c == ' '))).asString

/-- Modelled from the spec: the content has an "import-style line whose
imported name is not referenced elsewhere in the textual body", i.e. in
no non-import line. -/
def spec_js_has_unused_import (content : String) : Bool :=
  let lines := splitNl content
  lines.any (fun l =>
    spec_js_import_line l &&
    !(lines.any (fun l2 =>
        !(spec_js_import_line l2) && strContains l2 (spec_js_import_name l))))

/-- A repository oracle on which every remote call succeeds and the
branch comparison reports no file-level difference. -/
def gh1 : Gh :=
  ⟨"main", fun _ => CallRes.ok 1, fun _ => CallRes.ok (), fun _ _ => CallRes.ok 1,
    fun _ => CallRes.ok (), fun _ => CallRes.ok (), fun _ _ => CallRes.ok true,
    fun _ _ _ _ => CallRes.ok "u", 7⟩

/-- A repository oracle on which `repo.update_file` raises a
`GithubException` with status 403: `update_file` catches it, prints,
and returns normally, so nothing is actually changed on the branch, and
the branch comparison accordingly reports no difference. -/
def gh6 : Gh :=
  ⟨"main", fun _ => CallRes.ok 1, fun _ => CallRes.ok (), fun _ _ => CallRes.ok 1,
    fun _ => CallRes.ghex 403 "forbidden", fun _ => CallRes.ok (),
    fun _ _ => CallRes.ok true, fun _ _ _ _ => CallRes.ok "u", 7⟩

/-- A one-subtask plan whose description routes to the generic-edit
strategy for the file `app.js`. -/
def c3plan : ResolutionPlan := ⟨"", [⟨"Modify app.js", "1h"⟩], [], [], "", []⟩

/-- A delegated-edit result that still carries an import line whose
imported name (`unusedthing`) occurs in no other line. -/
def c3bad : String := "import unusedthing from \"u\";\nf();"

/-- The subtask description of the create-test-file counterexample. -/
def c5desc : String := "Create test file for widgets"

/-- The exact file body `create_test_file` generates for `c5desc`. -/
def c5content : String := test_file_skeleton "widgets" c5desc

/-- A one-subtask plan routed to the create-test-file strategy. -/
def c5plan : ResolutionPlan := ⟨"", [⟨c5desc, "1h"⟩], [], [], "", []⟩

/-- The edit-set invariant stated by the claim: an entry for path `p`
with content `c` either names a file absent from the input map or
differs from the input content of that path. -/
def good (fc : List (String × String)) (p c : String) : Prop :=
  dget fc p = none ∨ ∃ orig, dget fc p = some orig ∧ c ≠ orig

theorem startsWithL_nil (pat : List Char) :
    startsWithL [] pat = pat.isEmpty := by
  cases pat <;> rfl

theorem containsSub_append (pat a b : List Char)
    (h : containsSub pat b = true) : containsSub pat (a ++ b) = true := by
  induction a with
  | nil => simpa using h
  | cons c t ih =>
      show (startsWithL (c :: (t ++ b)) pat || containsSub pat (t ++ b)) = true
      rw [ih]
      exact Bool.or_true _

theorem strContains_append_right (s t pat : String)
    (h : strContains t pat = true) : strContains (s ++ t) pat = true := by
  unfold strContains at h ⊢
  have hd : (s ++ t).toList = s.toList ++ t.toList := by
    simp [String.toList]
  rw [hd]
  exact containsSub_append _ _ _ h

theorem dget_dset_self {α : Type} (d : List (String × α)) (k : String) (v : α) :
    dget (dset d k v) k = some v := by
  induction d with
  | nil => simp [dset, dget]
  | cons e t ih =>
      by_cases h : e.1 = k
      · simp [dset, dget, h]
      · simp [dset, dget, h, ih]

theorem dget_dset_ne {α : Type} (d : List (String × α)) (k p : String) (v : α)
    (h : p ≠ k) : dget (dset d k v) p = dget d p := by
  induction d with
  | nil => simp [dset, dget, Ne.symm h]
  | cons e t ih =>
      by_cases he : e.1 = k
      · subst he
        simp [dset, dget, Ne.symm h]
      · simp only [dset, if_neg he]
        by_cases hp : e.1 = p
        · simp [dget, hp]
        · simp [dget, hp, ih]

theorem dget_dset_inv {α : Type} (d : List (String × α)) (k : String) (v : α)
    (p : String) (c : α) (h : dget (dset d k v) p = some c) :
    (p = k ∧ c = v) ∨ dget d p = some c := by
  by_cases hp : p = k
  · subst hp
    rw [dget_dset_self] at h
    exact Or.inl ⟨rfl, (Option.some.inj h).symm⟩
  · rw [dget_dset_ne _ _ _ _ hp] at h
    exact Or.inr h

theorem dget_of_mem_nodup {α : Type} (fc : List (String × α)) (p : String) (c : α)
    (hnd : (fc.map Prod.fst).Nodup) (hm : (p, c) ∈ fc) : dget fc p = some c := by
  induction fc with
  | nil => cases hm
  | cons e t ih =>
      rcases List.mem_cons.mp hm with he | ht
      · rw [← he]
        simp [dget]
      · have hnd' : (e.1 :: t.map Prod.fst).Nodup := by
          rw [List.map_cons] at hnd
          exact hnd
        have hne : ¬ e.1 = p := by
          intro hq
          exact (List.nodup_cons.mp hnd').1 (hq ▸ List.mem_map.mpr ⟨(p, c), ht, rfl⟩)
        simp only [dget, if_neg hne]
        exact ih (List.nodup_cons.mp hnd').2 ht

theorem dget_ensure_self (d : List (String × JsonVal)) (f : String) :
    dget (ensure_list_field d f) f =
      (dget d f).map (fun v => if v.isList then v else JsonVal.arr [v]) := by
  unfold ensure_list_field
  cases h : dget d f with
  | none => simpa using h
  | some v =>
      by_cases hl : v.isList
      · simp [hl, h]
      · simp [hl, dget_dset_self]

theorem dget_ensure_ne (d : List (String × JsonVal)) (f n : String) (h : n ≠ f) :
    dget (ensure_list_field d f) n = dget d n := by
  unfold ensure_list_field
  cases hg : dget d f with
  | none => rfl
  | some v =>
      by_cases hl : v.isList
      · simp [hl]
      · simp [hl, dget_dset_ne _ _ _ _ h]

theorem dget_hia_ne (d : List (String × JsonVal)) (n : String)
    (h : n ≠ "issue_analysis") :
    dget (handle_issue_analysis d) n = dget d n := by
  unfold handle_issue_analysis
  cases hg : dget d "issue_analysis" with
  | none => rfl
  | some v => cases v <;> simp [dget_dset_ne _ _ _ _ h]

/-- C7: `update_readme` is idempotent — applying it twice yields the same
result as applying it once — and it appends the fixed Running Tests
boilerplate exactly when the heading `## Running Tests` is absent from
the content, returning the content unchanged otherwise. -/
theorem C7_update_readme :
    (∀ c d e, update_readme (update_readme c d) e = update_readme c d) ∧
    (∀ c d, strContains c "## Running Tests" = true → update_readme c d = c) ∧
    (∀ c d, strContains c "## Running Tests" = false →
      update_readme c d = c ++ runningTestsBoiler) := by
  have hb : strContains runningTestsBoiler "## Running Tests" = true := by decide
  have hchar1 : ∀ c d, strContains c "## Running Tests" = true → update_readme c d = c := by
    intro c d h
    unfold update_readme
    rw [if_pos h]
  have hchar2 : ∀ c d, strContains c "## Running Tests" = false →
      update_readme c d = c ++ runningTestsBoiler := by
    intro c d h
    unfold update_readme
    rw [if_neg (by simp [h])]
  refine ⟨?_, hchar1, hchar2⟩
  intro c d e
  by_cases h : strContains c "## Running Tests" = true
  · rw [hchar1 c d h]
    exact hchar1 c e h
  · rw [hchar2 c d (Bool.eq_false_iff.mpr h)]
    exact hchar1 _ _ (strContains_append_right _ _ _ hb)

/-- Witness for C7 at a concrete content lacking the heading. -/
theorem C7_witness :
    update_readme "# Hi" "d" = "# Hi" ++ runningTestsBoiler ∧
    update_readme (update_readme "# Hi" "d") "e" = update_readme "# Hi" "d" :=
  ⟨C7_update_readme.2.2 "# Hi" "d" (by decide), C7_update_readme.1 "# Hi" "d" "e"⟩

/-- C9: the output of `update_readme` does not depend on the description
argument — the subtask description supplied to the readme transform is
entirely ignored. -/
theorem C9_update_readme_ignores_description :
    ∀ content d1 d2, update_readme content d1 = update_readme content d2 :=
  fun _ _ _ => rfl

/-- C8: for every parsed dict payload, normalization wraps each of the
fields `dependencies`, `potential_challenges`, `documentation_updates`
and `subtasks` that is present but not already a list into a one-element
list, and leaves it unchanged when it is already a list. -/
theorem C8_wrap_scalar_fields (fields : List (String × JsonVal)) (n : String)
    (v : JsonVal)
    (hn : n ∈ ["dependencies", "potential_challenges", "documentation_updates",
      "subtasks"])
    (hv : dget fields n = some v) :
    dget (normalize_fields fields) n =
      some (if v.isList then v else JsonVal.arr [v]) := by
  unfold normalize_fields
  fin_cases hn
  · rw [dget_ensure_ne _ _ _ (by decide), dget_ensure_ne _ _ _ (by decide),
      dget_ensure_ne _ _ _ (by decide), dget_ensure_self,
      dget_hia_ne _ _ (by decide), hv]
    rfl
  · rw [dget_ensure_ne _ _ _ (by decide), dget_ensure_ne _ _ _ (by decide),
      dget_ensure_self, dget_ensure_ne _ _ _ (by decide),
      dget_hia_ne _ _ (by decide), hv]
    rfl
  · rw [dget_ensure_ne _ _ _ (by decide), dget_ensure_self,
      dget_ensure_ne _ _ _ (by decide), dget_ensure_ne _ _ _ (by decide),
      dget_hia_ne _ _ (by decide), hv]
    rfl
  · rw [dget_ensure_self, dget_ensure_ne _ _ _ (by decide),
      dget_ensure_ne _ _ _ (by decide), dget_ensure_ne _ _ _ (by decide),
      dget_hia_ne _ _ (by decide), hv]
    rfl

/-- Witness for C8: a scalar `dependencies` value is wrapped. -/
theorem C8_witness :
    dget (normalize_fields [("dependencies", JsonVal.str "d")]) "dependencies" =
      some (JsonVal.arr [JsonVal.str "d"]) :=
  C8_wrap_scalar_fields [("dependencies", JsonVal.str "d")] "dependencies"
    (JsonVal.str "d") (by decide) rfl

/-- C4: `parse_ai_response` first attempts a direct JSON parse; on
failure it parses the interior of a fenced json block; when both fail it
raises the malformed-plan `ValueError` — in particular on the input
`not json at all` — and a response wrapped in a json fence with valid
inner JSON parses successfully from the fenced block. -/
theorem C4_parse_flow :
    (∀ s v, jsonLoads s = some v → parse_ai_response s = normalize_data v) ∧
    (∀ s inner v, jsonLoads s = none → extract_fenced_json s = some inner →
      jsonLoads inner = some v → parse_ai_response s = normalize_data v) ∧
    (∀ s, jsonLoads s = none →
      (∀ inner, extract_fenced_json s = some inner → jsonLoads inner = none) →
      parse_ai_response s = Except.error (PyError.valueError parseErrorMsg)) ∧
    parse_ai_response "not json at all" =
      Except.error (PyError.valueError parseErrorMsg) ∧
    parse_ai_response "```json\n\x7b\"a\": 1\x7d\n```" =
      Except.ok (JsonVal.obj [("a", JsonVal.num 1)]) := by
  refine ⟨?_, ?_, ?_, rfl, rfl⟩
  · intro s v h
    unfold parse_ai_response
    rw [h]
  · intro s inner v h1 h2 h3
    unfold parse_ai_response
    rw [h1, h2]
    show (match jsonLoads inner with
      | some data => normalize_data data
      | none => Except.error (PyError.valueError parseErrorMsg)) = normalize_data v
    rw [h3]
  · intro s h1 h2
    unfold parse_ai_response
    rw [h1]
    cases hf : extract_fenced_json s with
    | none => rfl
    | some inner =>
        show (match jsonLoads inner with
          | some data => normalize_data data
          | none => Except.error (PyError.valueError parseErrorMsg)) =
          Except.error (PyError.valueError parseErrorMsg)
        rw [h2 inner hf]

/-- Witness for C4 at a fenced response whose direct parse fails. -/
theorem C4_witness :
    parse_ai_response "x ```json\n[3]```" =
      normalize_data (JsonVal.arr [JsonVal.num 3]) :=
  C4_parse_flow.2.1 "x ```json\n[3]```" "[3]" (JsonVal.arr [JsonVal.num 3])
    rfl rfl rfl

/-- C10: an input that parses as valid JSON whose top-level value is not
a mapping makes `parse_ai_response` raise the `AttributeError` from
`.get` on a non-dict, which is a different exception from the
`Unable to parse AI response as JSON` `ValueError`. -/
theorem C10_nonmapping_payload (s : String) (v : JsonVal)
    (h : jsonLoads s = some v) (hv : ∀ fields, v ≠ JsonVal.obj fields) :
    parse_ai_response s =
      Except.error (PyError.attributeError "no attribute get") ∧
    PyError.attributeError "no attribute get" ≠
      PyError.valueError parseErrorMsg := by
  constructor
  · unfold parse_ai_response
    rw [h]
    cases v with
    | obj fields => exact absurd rfl (hv fields)
    | str s2 => rfl
    | num n2 => rfl
    | bool b2 => rfl
    | null => rfl
    | arr xs => rfl
  · decide

/-- Witness for C10: a JSON array payload. -/
theorem C10_witness :
    parse_ai_response "[1]" =
      Except.error (PyError.attributeError "no attribute get") :=
  (C10_nonmapping_payload "[1]" (JsonVal.arr [JsonVal.num 1]) rfl
    (fun _ h => JsonVal.noConfusion h)).1

/-- Counterexample to C2: in a repository whose known files are mostly
`.js` the spec's majority vote selects the JS family, but
`create_test_file` still produces the default-family name
`test_widgets.py` — the repository extensions are never consulted. -/
theorem C2_counterexample :
    spec_majority_family ["a.js", "b.js"] = LangFamily.jsFamily ∧
    ¬ (∀ name content,
        create_test_file "create test file for widgets"
            [("a.js", "x"), ("b.js", "y")] = some (name, content) →
        spec_name_family name = LangFamily.jsFamily) := by
  constructor
  · decide
  · intro h
    have h2 := h "test_widgets.py"
      (test_file_skeleton "widgets" "create test file for widgets") rfl
    exact absurd h2 (by decide)

set_option maxRecDepth 10000 in
/-- C2 (amended): `create_test_file` ignores the repository contents
entirely; whenever the description matches a `for <identifier>` pattern
it produces exactly one default-family (pytest) file named
`test_<identifier>.py`, and on `... for widgets ...` the produced body
has exactly one placeholder test function, referencing the subtask
description. -/
theorem C2_create_test_file :
    (∀ d fc, create_test_file d fc = create_test_file d []) ∧
    (∀ d fc ident, find_for_ident d.toList = some ident →
      create_test_file d fc =
        some ("test_" ++ ident ++ ".py", test_file_skeleton ident d)) ∧
    create_test_file "... for widgets ..." [] =
      some ("test_widgets.py", test_file_skeleton "widgets" "... for widgets ...") ∧
    countSub "def test_".toList
      (test_file_skeleton "widgets" "... for widgets ...").toList = 1 ∧
    strContains (test_file_skeleton "widgets" "... for widgets ...")
      "... for widgets ..." = true := by
  refine ⟨fun d fc => rfl, ?_, by decide, by decide, by decide⟩
  intro d fc ident h
  unfold create_test_file
  rw [h]

/-- Witness for C2 at a concrete description with a `for` pattern. -/
theorem C2_witness :
    create_test_file "make it for foo now" [("a.cs", "x")] =
      some ("test_foo.py", test_file_skeleton "foo" "make it for foo now") :=
  C2_create_test_file.2.1 "make it for foo now" [("a.cs", "x")] "foo" rfl

/-- Counterexample to C1: on a repository oracle where every call
succeeds but the branch comparison is empty, `setup_and_update_branch`
does skip PR creation, yet it returns `succeeded = false` and a message
about failing to create the pull request, not a success-with-caveat
noting the absence of differences. -/
theorem C1_counterexample :
    ¬ ((setup_and_update_branch gh1 [("a.txt", "x")] "main" (some 5)).1.1 = true ∧
       strContains
         (strLower (setup_and_update_branch gh1 [("a.txt", "x")] "main" (some 5)).1.2.1)
         "no differences" = true ∧
       (setup_and_update_branch gh1 [("a.txt", "x")] "main" (some 5)).2 = false) := by
  decide

/-- C1 (amended): when the branch is created, at least one file update
call completes, and the comparison between base and new branch reports
no file-level difference, `setup_and_update_branch` does not invoke
`repo.create_pull` and returns `succeeded = false` with the
`failed to create pull request` message (the no-differences detail is
only printed, not returned). -/
theorem C1_empty_diff (gh : Gh) (files : List (String × String)) (base : String)
    (issue : Option Nat) (nb : String)
    (hnb : create_branch gh (resolve_base gh base) = some nb)
    (hupd : any_update_ok gh files nb = true)
    (hcmp : gh.compare_empty (resolve_base gh base) nb = CallRes.ok true) :
    setup_and_update_branch gh files base issue =
      ((false, "Branch \x27" ++ nb ++
        "\x27 created and files updated, but failed to create pull request", none),
       false) := by
  simp only [setup_and_update_branch, create_pull_request, hnb, hupd, hcmp]
  simp

/-- Witness for C1 on the all-succeeding, empty-diff oracle. -/
theorem C1_witness :
    setup_and_update_branch gh1 [("a.txt", "x")] "main" (some 5) =
      ((false,
        "Branch \x27fix-issue-7\x27 created and files updated, but failed to create pull request",
        none), false) :=
  C1_empty_diff gh1 [("a.txt", "x")] "main" (some 5) "fix-issue-7" rfl rfl rfl

/-- Counterexample to C6: on `gh6` the only file's update internally
catches a 403 `GithubException`, so nothing is actually updated or
created on the branch, yet the publisher's `files_updated` flag is set
by the normally-returning call: the returned message is the
failed-to-create-pull-request one, not the no-files-were-updated
message the claim requires. -/
theorem C6_counterexample :
    update_actually_changed gh6 "a.txt" "fix-issue-7" = false ∧
    ¬ ((setup_and_update_branch gh6 [("a.txt", "x")] "main" (some 3)).1.1 = false ∧
       strContains
         (strLower (setup_and_update_branch gh6 [("a.txt", "x")] "main" (some 3)).1.2.1)
         "no files were updated" = true ∧
       (setup_and_update_branch gh6 [("a.txt", "x")] "main" (some 3)).2 = false) := by
  decide

/-- C6 (amended): when the branch is created and no `update_file` call
completes normally (in particular when the edit set is empty or every
per-file attempt raises), `setup_and_update_branch` returns
`succeeded = false` with the no-files-were-updated message and never
invokes `repo.create_pull`. -/
theorem C6_no_update (gh : Gh) (files : List (String × String)) (base : String)
    (issue : Option Nat) (nb : String)
    (hnb : create_branch gh (resolve_base gh base) = some nb)
    (hupd : any_update_ok gh files nb = false) :
    setup_and_update_branch gh files base issue =
      ((false, "No files were updated. Changes might already exist in the repository.",
        none), false) := by
  simp only [setup_and_update_branch, hnb, hupd]
  simp

/-- Witness for C6 on an empty edit set. -/
theorem C6_witness :
    setup_and_update_branch gh1 [] "main" none =
      ((false, "No files were updated. Changes might already exist in the repository.",
        none), false) :=
  C6_no_update gh1 [] "main" none "fix-issue-7" rfl rfl

theorem generic_fold_good (oracle : String → String → String → String)
    (fc : List (String × String)) (dl dor : String)
    (l md : List (String × String))
    (hl : ∀ e ∈ l, dget fc e.1 = some e.2)
    (hmd : ∀ p c, dget md p = some c → good fc p c) :
    ∀ p c, dget (l.foldl (generic_step oracle dl dor) md) p = some c →
      good fc p c := by
  induction l generalizing md with
  | nil => exact hmd
  | cons e t ih =>
      intro p c h
      refine ih _ (fun e2 he2 => hl e2 (List.mem_cons_of_mem _ he2)) ?_ p c h
      intro p2 c2 h2
      simp only [generic_step] at h2
      split at h2
      case isTrue hc =>
        split at h2
        case isTrue hd =>
          rcases dget_dset_inv _ _ _ _ _ h2 with ⟨hp, hcv⟩ | hold
          · subst hp
            refine Or.inr ⟨e.2, hl e (List.mem_cons_self e t), ?_⟩
            rw [hcv]
            exact hd
          · exact hmd _ _ hold
        case isFalse hd => exact hmd _ _ h2
      case isFalse hc => exact hmd _ _ h2

theorem process_subtask_good (oracle : String → String → String → String)
    (fc md : List (String × String)) (st : Subtask)
    (hnd : (fc.map Prod.fst).Nodup)
    (hst : strContains (strLower st.description) "create test file" = false)
    (hmd : ∀ p c, dget md p = some c → good fc p c) :
    ∀ p c, dget (process_subtask oracle fc md st) p = some c → good fc p c := by
  intro p c h
  simp only [process_subtask] at h
  split at h
  case isTrue hcr => rw [hst] at hcr; exact absurd hcr (by simp)
  case isFalse hcr =>
    split at h
    case isTrue hrd =>
      split at h
      case h_1 orig heq =>
        split at h
        case isTrue hup =>
          rcases dget_dset_inv _ _ _ _ _ h with ⟨hp, hcv⟩ | hold
          · subst hp
            refine Or.inr ⟨orig, heq, ?_⟩
            rw [hcv]
            exact hup
          · exact hmd _ _ hold
        case isFalse hup => exact hmd _ _ h
      case h_2 heq =>
        rcases dget_dset_inv _ _ _ _ _ h with ⟨hp, hcv⟩ | hold
        · subst hp
          exact Or.inl heq
        · exact hmd _ _ hold
    case isFalse hrd =>
      exact generic_fold_good oracle fc _ _ fc md
        (fun e he => dget_of_mem_nodup fc e.1 e.2 hnd he) hmd p c h

theorem subtasks_fold_good (oracle : String → String → String → String)
    (fc : List (String × String)) (sts : List Subtask)
    (md : List (String × String))
    (hnd : (fc.map Prod.fst).Nodup)
    (hsts : ∀ st ∈ sts, strContains (strLower st.description) "create test file" = false)
    (hmd : ∀ p c, dget md p = some c → good fc p c) :
    ∀ p c,
      dget (sts.foldl (fun md2 st => process_subtask oracle fc md2 st) md) p = some c →
      good fc p c := by
  induction sts generalizing md with
  | nil => exact hmd
  | cons st t ih =>
      intro p c h
      refine ih _ (fun st2 h2 => hsts st2 (List.mem_cons_of_mem _ h2)) ?_ p c h
      exact process_subtask_good oracle fc md st hnd
        (hsts st (List.mem_cons_self st t)) hmd

/-- Counterexample to C5: when the repository already contains a file
`test_widgets.py` with exactly the content `create_test_file` generates,
the create-test-file strategy still records the file in the edit set —
an entry that names a present file and carries byte-identical content. -/
theorem C5_counterexample :
    ¬ (∀ p c,
        dget (modify_files (fun c2 _ _ => c2) [("test_widgets.py", c5content)] c5plan)
            p = some c →
        good [("test_widgets.py", c5content)] p c) := by
  intro h
  rcases h "test_widgets.py" c5content rfl with h1 | ⟨orig, ho, hne⟩
  · exact absurd h1 (by decide)
  · have hx : dget [("test_widgets.py", c5content)] "test_widgets.py" =
        some c5content := rfl
    rw [hx] at ho
    exact hne (Option.some.inj ho)

/-- C5 (amended): for every plan none of whose subtasks routes to the
create-test-file strategy, every entry of the edit set built by
`modify_files` either names a file absent from the input map or carries
content that differs from the input content of that path; the
create-test-file strategy is excluded because it records its file
unconditionally. -/
theorem C5_edit_set_invariant (oracle : String → String → String → String)
    (fc : List (String × String)) (plan : ResolutionPlan)
    (hnd : (fc.map Prod.fst).Nodup)
    (hsts : ∀ st ∈ plan.subtasks,
      strContains (strLower st.description) "create test file" = false) :
    ∀ p c, dget (modify_files oracle fc plan) p = some c → good fc p c := by
  intro p c h
  exact subtasks_fold_good oracle fc plan.subtasks [] hnd hsts
    (fun _ _ h2 => Option.noConfusion h2) p c h

/-- Witness for C5 on a readme-updating plan. -/
theorem C5_witness :
    good [("README.md", "x")] "README.md" ("x" ++ runningTestsBoiler) :=
  C5_edit_set_invariant (fun c _ _ => c) [("README.md", "x")]
    ⟨"", [⟨"Update README", "1h"⟩], [], [], "", []⟩
    (by decide) (by decide) "README.md" ("x" ++ runningTestsBoiler) rfl

/-- Counterexample to C3: the delegated-edit result for `app.js` is
published verbatim even though it contains an import line whose
imported name is referenced nowhere else — no import-pruning pass runs
on edit-set contents (`remove_unused_imports` is defined in the source
but never called by `modify_files`). -/
theorem C3_counterexample :
    ¬ (∀ p c,
        dget (modify_files (fun _ _ _ => c3bad) [("app.js", "f();")] c3plan) p =
          some c →
        splitext_ext p ∈ import_family →
        spec_js_has_unused_import c = false) := by
  intro h
  have h2 := h "app.js" c3bad rfl (by decide)
  exact absurd h2 (by decide)

/-- C3 (amended): the edit pipeline applies no import pruning — in the
generic-edit strategy the delegated output is recorded in the edit set
byte-for-byte whenever it differs from the original, whatever import
lines it contains. -/
theorem C3_no_import_pruning (oracle : String → String → String → String)
    (orig : String) (h : ¬ oracle orig "Modify app.js" ".js" = orig) :
    modify_files oracle [("app.js", orig)] c3plan =
      [("app.js", oracle orig "Modify app.js" ".js")] := by
  simp only [modify_files, c3plan, List.foldl, process_subtask]
  rw [if_neg (by decide), if_neg (by decide)]
  simp only [List.foldl, generic_step]
  rw [if_pos (by decide)]
  have hx : splitext_ext "app.js" = ".js" := rfl
  rw [hx, if_pos h]
  rfl

/-- Witness for C3: a concrete oracle output carrying an unused import
is published unchanged. -/
theorem C3_witness :
    modify_files (fun _ _ _ => c3bad) [("app.js", "f();")] c3plan =
      [("app.js", c3bad)] :=
  C3_no_import_pruning (fun _ _ _ => c3bad) "f();" (by decide)
